import Mathlib

/-
  Verification of the fpga_pci PCIe driver (fpga_pci_pinned.c / fpga_pci.c).

  The driver's interaction with the host kernel is embedded shallowly:
  every kernel primitive the driver calls (pci_enable_device,
  pci_request_regions, pci_iomap, ioremap_wc, dma_alloc_coherent,
  request_irq, and their release counterparts) is modelled by an oracle
  environment `Env` fixing the value the primitive returns, and each call
  the driver performs is recorded as an `Event` in a trace.  The control
  flow of `fpga_pci_probe` and `fpga_pci_remove` below mirrors the C
  sources line by line: each error branch of the C repeats its cleanup
  calls explicitly, and so does the embedding.
-/

namespace FpgaPci

/-- A PCI device as the driver sees it: identifiers, its assigned
interrupt line, the physical base and length of BAR region 0, and the
per-device pointer stored with pci_set_drvdata (0 encodes NULL). -/
structure PciDev where
  vendor : Nat
  device : Nat
  irq : Nat
  resourceStart0 : Nat
  resourceLen0 : Nat
  drvdata : Nat
deriving DecidableEq, Repr

/-- One call the driver makes into the host kernel.  Acquisition events
record the handle the kernel returned; release events record the handle
the driver passed in. -/
inductive Event where
  | enable
  | requestRegions
  | iomap (phys len va : Nat)
  | ioremapWc (phys len va : Nat)
  | dmaAlloc (size cpu bus : Nat)
  | requestIrq (irq : Nat) (shared : Bool)
  | setDrvdata (va : Nat)
  | freeIrq (irq : Nat)
  | dmaFree (size cpu bus : Nat)
  | iounmap (va : Nat)
  | pciIounmap (va : Nat)
  | releaseRegions
  | disable
deriving DecidableEq, Repr

/-- Oracle for the kernel primitives called during probe: the integer
results of pci_enable_device, pci_request_regions and request_irq
(0 means success, as in C), and the pointers returned by pci_iomap,
ioremap_wc and dma_alloc_coherent (0 encodes NULL, i.e. failure). -/
structure Env where
  enableRes : Int
  regionsRes : Int
  iomapRes : Nat
  ioremapWcRes : Nat
  dmaBufRes : Nat
  dmaHandleRes : Nat
  irqRes : Int
deriving DecidableEq, Repr

/-- Oracle for the two kernel allocation primitives that
fpga_pci_remove calls afresh (ioremap_wc and dma_alloc_coherent). -/
structure RemoveEnv where
  ioremapWcRes : Nat
  dmaBufRes : Nat
  dmaHandleRes : Nat
deriving DecidableEq, Repr

/-- Result of a probe run: the int returned to the PCI core, the trace
of kernel calls performed, and the drvdata value left on the device. -/
structure ProbeResult where
  ret : Int
  trace : List Event
  drvdata : Nat
deriving DecidableEq, Repr

/-- The errno value ENOMEM; the C returns -ENOMEM on mapping and
allocation failures. -/
def ENOMEM : Int := 12

/-- The fixed DMA buffer size: `size_t dma_size = 4096;` in the C. -/
def dmaSize : Nat := 4096

/-- Shallow embedding of fpga_pci_probe from fpga_pci_pinned.c.
Each branch mirrors one error branch of the C function, repeating the
cleanup calls exactly as the C does; pci_set_drvdata(pdev, hw_addr) is
performed after the DMA allocation and before request_irq, exactly as
in the source. -/
def fpga_pci_probe (env : Env) (pdev : PciDev) : ProbeResult :=
  let dma_size := dmaSize
  let err := env.enableRes
  if err ≠ 0 then
    { ret := err, trace := [], drvdata := pdev.drvdata }
  else
    let err := env.regionsRes
    if err ≠ 0 then
      { ret := err, trace := [.enable, .disable], drvdata := pdev.drvdata }
    else
      let hw_addr := env.iomapRes
      if hw_addr = 0 then
        { ret := -ENOMEM
          trace := [.enable, .requestRegions, .releaseRegions, .disable]
          drvdata := pdev.drvdata }
      else
        let wc_mem := env.ioremapWcRes
        if wc_mem = 0 then
          { ret := -ENOMEM
            trace := [.enable, .requestRegions,
                      .iomap pdev.resourceStart0 pdev.resourceLen0 hw_addr,
                      .pciIounmap hw_addr, .releaseRegions, .disable]
            drvdata := pdev.drvdata }
        else
          let dma_buffer := env.dmaBufRes
          let dma_handle := env.dmaHandleRes
          if dma_buffer = 0 then
            { ret := -ENOMEM
              trace := [.enable, .requestRegions,
                        .iomap pdev.resourceStart0 pdev.resourceLen0 hw_addr,
                        .ioremapWc pdev.resourceStart0 pdev.resourceLen0 wc_mem,
                        .iounmap wc_mem, .pciIounmap hw_addr,
                        .releaseRegions, .disable]
              drvdata := pdev.drvdata }
          else
            let irq := pdev.irq
            let err := env.irqRes
            if err ≠ 0 then
              { ret := err
                trace := [.enable, .requestRegions,
                          .iomap pdev.resourceStart0 pdev.resourceLen0 hw_addr,
                          .ioremapWc pdev.resourceStart0 pdev.resourceLen0 wc_mem,
                          .dmaAlloc dma_size dma_buffer dma_handle,
                          .setDrvdata hw_addr,
                          .dmaFree dma_size dma_buffer dma_handle,
                          .iounmap wc_mem, .pciIounmap hw_addr,
                          .releaseRegions, .disable]
                drvdata := hw_addr }
            else
              { ret := 0
                trace := [.enable, .requestRegions,
                          .iomap pdev.resourceStart0 pdev.resourceLen0 hw_addr,
                          .ioremapWc pdev.resourceStart0 pdev.resourceLen0 wc_mem,
                          .dmaAlloc dma_size dma_buffer dma_handle,
                          .setDrvdata hw_addr,
                          .requestIrq irq true]
                drvdata := hw_addr }

/-- Shallow embedding of fpga_pci_remove from fpga_pci_pinned.c.
The C reads hw_addr back from drvdata, but calls ioremap_wc and
dma_alloc_coherent AGAIN to obtain wc_mem, dma_buffer and dma_handle,
and then frees those freshly obtained handles; the embedding records
those two fresh acquisition calls followed by the six release calls in
source order. -/
def fpga_pci_remove (env : RemoveEnv) (pdev : PciDev) : List Event :=
  let hw_addr := pdev.drvdata
  let wc_mem := env.ioremapWcRes
  let irq := pdev.irq
  let dma_size := dmaSize
  let dma_handle := env.dmaHandleRes
  let dma_buffer := env.dmaBufRes
  [.ioremapWc pdev.resourceStart0 pdev.resourceLen0 wc_mem,
   .dmaAlloc dma_size dma_buffer dma_handle,
   .freeIrq irq,
   .dmaFree dma_size dma_buffer dma_handle,
   .iounmap wc_mem,
   .pciIounmap hw_addr,
   .releaseRegions,
   .disable]

/-- The index (1..6) of the first probe step that fails under `env`,
or none when all six succeed. -/
def firstFailingStep (env : Env) : Option Nat :=
  if env.enableRes ≠ 0 then some 1
  else if env.regionsRes ≠ 0 then some 2
  else if env.iomapRes = 0 then some 3
  else if env.ioremapWcRes = 0 then some 4
  else if env.dmaBufRes = 0 then some 5
  else if env.irqRes ≠ 0 then some 6
  else none

/-- The error value the failing step produces: the kernel result itself
for steps 1, 2 and 6 and -ENOMEM for the NULL-returning steps 3..5. -/
def failCode (env : Env) (k : Nat) : Int :=
  match k with
  | 1 => env.enableRes
  | 2 => env.regionsRes
  | 6 => env.irqRes
  | _ => -ENOMEM

/-- Whether an event acquires a resource. -/
def isAcquire : Event → Bool
  | .enable | .requestRegions | .iomap _ _ _ | .ioremapWc _ _ _
  | .dmaAlloc _ _ _ | .requestIrq _ _ => true
  | _ => false

/-- Whether an event releases a resource. -/
def isRelease : Event → Bool
  | .disable | .releaseRegions | .pciIounmap _ | .iounmap _
  | .dmaFree _ _ _ | .freeIrq _ => true
  | _ => false

/-- The release event that frees exactly the resource acquired by the
given acquisition event, with the same handle; none for non-acquiring
events. -/
def releaseOf : Event → Option Event
  | .enable => some .disable
  | .requestRegions => some .releaseRegions
  | .iomap _ _ va => some (.pciIounmap va)
  | .ioremapWc _ _ va => some (.iounmap va)
  | .dmaAlloc s c b => some (.dmaFree s c b)
  | .requestIrq i _ => some (.freeIrq i)
  | _ => none

/-- Remove the first occurrence of an element from a list. -/
def eraseOne {α : Type} [DecidableEq α] : List α → α → List α
  | [], _ => []
  | x :: xs, a => if x = a then xs else x :: eraseOne xs a

/-- Multiset of live resources held at some point of a trace: how many
times the device is enabled, how many region reservations are held, and
the handles of the live MMIO mappings, write-combined mappings,
DMA buffers, and interrupt registrations. -/
structure ResState where
  enabled : Nat
  regions : Nat
  mmio : List Nat
  wc : List Nat
  dma : List (Nat × Nat)
  irqs : List Nat
deriving DecidableEq, Repr

/-- No resource held. -/
def ResState.empty : ResState := ⟨0, 0, [], [], [], []⟩

/-- Effect of one kernel call on the set of live resources. -/
def applyEvent (s : ResState) : Event → ResState
  | .enable => { s with enabled := s.enabled + 1 }
  | .disable => { s with enabled := s.enabled - 1 }
  | .requestRegions => { s with regions := s.regions + 1 }
  | .releaseRegions => { s with regions := s.regions - 1 }
  | .iomap _ _ va => { s with mmio := va :: s.mmio }
  | .pciIounmap va => { s with mmio := eraseOne s.mmio va }
  | .ioremapWc _ _ va => { s with wc := va :: s.wc }
  | .iounmap va => { s with wc := eraseOne s.wc va }
  | .dmaAlloc _ c b => { s with dma := (c, b) :: s.dma }
  | .dmaFree _ c b => { s with dma := eraseOne s.dma (c, b) }
  | .requestIrq i _ => { s with irqs := i :: s.irqs }
  | .freeIrq i => { s with irqs := eraseOne s.irqs i }
  | .setDrvdata _ => s

/-- Live resources after running a whole trace from nothing held. -/
def runTrace (t : List Event) : ResState := t.foldl applyEvent ResState.empty

/-- Total number of live resources in a state. -/
def liveCount (s : ResState) : Nat :=
  s.enabled + s.regions + s.mmio.length + s.wc.length + s.dma.length + s.irqs.length

/-- The six acquisition calls a fully successful probe performs, in
source order, with the handles the environment returns. -/
def acquireListFull (env : Env) (p : PciDev) : List Event :=
  [.enable, .requestRegions,
   .iomap p.resourceStart0 p.resourceLen0 env.iomapRes,
   .ioremapWc p.resourceStart0 p.resourceLen0 env.ioremapWcRes,
   .dmaAlloc dmaSize env.dmaBufRes env.dmaHandleRes,
   .requestIrq p.irq true]

/-- Number of acquisition steps that complete under `env`: k - 1 when
step k is the first to fail, 6 when all succeed. -/
def stepsCompleted (env : Env) : Nat :=
  match firstFailingStep env with
  | some k => k - 1
  | none => 6

/-- A virtual mapping: base virtual address, base physical address and
length.  Offsets translate by adding to the physical base. -/
structure Mapping where
  virtBase : Nat
  physBase : Nat
  len : Nat
deriving DecidableEq, Repr

/-- Physical address a mapping assigns to an offset. -/
def translate (m : Mapping) (off : Nat) : Nat := m.physBase + off

/-- Store a value into physical memory through a mapping at an offset. -/
def writeVia (m : Mapping) (mem : Nat → Nat) (off v : Nat) : Nat → Nat :=
  fun a => if a = translate m off then v else mem a

/-- Load a value from physical memory through a mapping at an offset. -/
def readVia (m : Mapping) (mem : Nat → Nat) (off : Nat) : Nat :=
  mem (translate m off)

/-- One entry of the PCI id matching table. -/
structure PciDeviceId where
  vendor : Nat
  device : Nat
deriving DecidableEq, Repr

/-- The driver's id table: the single PCI_DEVICE(0x1234, 0x5678) entry
followed by the all-zero sentinel, as declared identically in
fpga_pci_pinned.c and fpga_pci.c. -/
def fpga_pci_ids : List PciDeviceId :=
  [⟨0x1234, 0x5678⟩, ⟨0, 0⟩]

/-- The PCI core's membership predicate over an id table: entries are
scanned in order until the all-zero sentinel, and an entry matches when
its vendor and device ids equal the probed device's. -/
def pci_match_id : List PciDeviceId → Nat → Nat → Bool
  | [], _, _ => false
  | e :: rest, vendor, device =>
    if e.vendor = 0 ∧ e.device = 0 then false
    else if e.vendor = vendor ∧ e.device = device then true
    else pci_match_id rest vendor device

/-- Verdict an interrupt handler returns to the kernel dispatcher. -/
inductive Irqreturn where
  | irqNone
  | irqHandled
deriving DecidableEq, Repr

/-- Alphabet of side effects an interrupt handler body could perform. -/
inductive HandlerAction where
  | printk
  | mutateDeviceState
  | allocateMemory
  | blockingCall
deriving DecidableEq, Repr

/-- Shallow embedding of fpga_pci_irq_handler: the body is a single
pr_info call followed by `return IRQ_HANDLED`, for any line number and
any dev_id cookie. -/
def fpga_pci_irq_handler (irq : Int) (dev_id : Nat) : List HandlerAction × Irqreturn :=
  ([.printk], .irqHandled)

/-- Sample device used to evaluate the theorems on concrete inputs. -/
def pDev : PciDev :=
  { vendor := 0x1234, device := 0x5678, irq := 7
    resourceStart0 := 0xA000, resourceLen0 := 0x100, drvdata := 0 }

/-- Sample environment under which every probe step succeeds. -/
def envOk : Env :=
  { enableRes := 0, regionsRes := 0, iomapRes := 100
    ioremapWcRes := 200, dmaBufRes := 300, dmaHandleRes := 400, irqRes := 0 }

/-- Claim C4: the probe executes exactly six acquisition steps in the
fixed order enable, reserve regions, map MMIO, map write-combined,
allocate DMA buffer, register interrupt; the acquisition events of any
probe run are exactly the first `stepsCompleted` entries of that fixed
list, so a failure at step k prevents every later step from being
attempted. -/
theorem probe_six_steps_fixed_order (env : Env) (p : PciDev) :
    ((fpga_pci_probe env p).trace.filter isAcquire) =
      (acquireListFull env p).take (stepsCompleted env) := by
  unfold fpga_pci_probe stepsCompleted firstFailingStep acquireListFull
  by_cases h1 : env.enableRes = 0 <;>
  by_cases h2 : env.regionsRes = 0 <;>
  by_cases h3 : env.iomapRes = 0 <;>
  by_cases h4 : env.ioremapWcRes = 0 <;>
  by_cases h5 : env.dmaBufRes = 0 <;>
  by_cases h6 : env.irqRes = 0 <;>
  simp [h1, h2, h3, h4, h5, h6, isAcquire, List.filter]

/-- Claim C6: the id-table membership predicate holds exactly for the
single registered pair (0x1234, 0x5678) and for no other pair; it is a
total Boolean function of its two arguments, with no failure value and
no state. -/
theorem filter_matches_iff (v d : Nat) :
    pci_match_id fpga_pci_ids v d = true ↔ (v = 0x1234 ∧ d = 0x5678) := by
  simp only [fpga_pci_ids, pci_match_id]
  norm_num
  constructor
  · rintro ⟨hv, hd⟩
    exact ⟨hv.symm, hd.symm⟩
  · rintro ⟨hv, hd⟩
    exact ⟨hv.symm, hd.symm⟩

/-- Claim C10: for every interrupt line number and every dev_id cookie
the handler performs only the pr_info logging call — no device-state
mutation, no allocation, no blocking call — and returns IRQ_HANDLED
unconditionally, claiming every signal on the shared line. -/
theorem irq_handler_always_handled (i : Int) (d : Nat) :
    fpga_pci_irq_handler i d = ([HandlerAction.printk], Irqreturn.irqHandled) ∧
    HandlerAction.mutateDeviceState ∉ (fpga_pci_irq_handler i d).1 ∧
    HandlerAction.allocateMemory ∉ (fpga_pci_irq_handler i d).1 ∧
    HandlerAction.blockingCall ∉ (fpga_pci_irq_handler i d).1 := by
  refine ⟨rfl, ?_, ?_, ?_⟩ <;> simp [fpga_pci_irq_handler]

/-- Environment whose step 2 (pci_request_regions) fails with -EBUSY. -/
def envF2 : Env := { envOk with regionsRes := -16 }

/-- Environment whose step 4 (ioremap_wc) returns NULL. -/
def envF4 : Env := { envOk with ioremapWcRes := 0 }

/-- Environment whose step 6 (request_irq) fails with -EIO. -/
def envF6 : Env := { envOk with irqRes := -5 }

/-- Environment for the remove-time reallocation calls, returning fresh
handles distinct from the ones envOk handed to the probe. -/
def envRm : RemoveEnv := { ioremapWcRes := 201, dmaBufRes := 301, dmaHandleRes := 401 }

/-- The sample device as remove sees it after a successful envOk probe:
its drvdata holds the probe's MMIO base. -/
def pDevLive : PciDev := { pDev with drvdata := (fpga_pci_probe envOk pDev).drvdata }

/-- Claim C3: when step k is the first probe step to fail, the probe
returns exactly the failing step's error value, the release calls in
its trace are exactly the releases of the acquired resources in strict
reverse acquisition order with matching handles, and no resource is
live once the probe has returned. -/
theorem probe_failure_unwind (env : Env) (p : PciDev) (k : Nat)
    (h : firstFailingStep env = some k) :
    (fpga_pci_probe env p).ret = failCode env k ∧
    ((fpga_pci_probe env p).trace.filter isRelease) =
      (((fpga_pci_probe env p).trace.filter isAcquire).filterMap releaseOf).reverse ∧
    liveCount (runTrace (fpga_pci_probe env p).trace) = 0 := by
  unfold firstFailingStep at h
  by_cases h1 : env.enableRes = 0 <;>
  by_cases h2 : env.regionsRes = 0 <;>
  by_cases h3 : env.iomapRes = 0 <;>
  by_cases h4 : env.ioremapWcRes = 0 <;>
  by_cases h5 : env.dmaBufRes = 0 <;>
  by_cases h6 : env.irqRes = 0 <;>
  simp only [h1, h2, h3, h4, h5, h6, if_true, if_false, ne_eq, not_true_eq_false,
    not_false_eq_true, ite_true, ite_false, reduceCtorEq, Option.some.injEq] at h <;>
  first
  | exact absurd h (by simp)
  | (subst h
     simp [fpga_pci_probe, h1, h2, h3, h4, h5, h6, failCode, isRelease, isAcquire,
           releaseOf, runTrace, applyEvent, liveCount, eraseOne, ResState.empty,
           List.filter, List.filterMap])

/-- Witness for probe_failure_unwind at the concrete step-4 failure. -/
theorem probe_failure_unwind_witness :
    firstFailingStep envF4 = some 4 ∧
    ((fpga_pci_probe envF4 pDev).ret = failCode envF4 4 ∧
     ((fpga_pci_probe envF4 pDev).trace.filter isRelease) =
       (((fpga_pci_probe envF4 pDev).trace.filter isAcquire).filterMap releaseOf).reverse ∧
     liveCount (runTrace (fpga_pci_probe envF4 pDev).trace) = 0) :=
  ⟨by decide, probe_failure_unwind envF4 pDev 4 (by decide)⟩

/-- Claim C2 counterexample: when step 6 (request_irq) fails, the probe
returns the error, yet the drvdata retrievable through the device
handle has been changed from its pre-probe value 0 to the MMIO base
100, because pci_set_drvdata runs before request_irq and is not undone
in the unwind. -/
theorem probe_step6_failure_publishes_drvdata :
    firstFailingStep envF6 = some 6 ∧
    (fpga_pci_probe envF6 pDev).ret = -5 ∧
    pDev.drvdata = 0 ∧
    (fpga_pci_probe envF6 pDev).drvdata = 100 := by decide

/-- Claim C2 (amended): on a probe failing at step k with k ≤ 5 the
drvdata visible through the device handle is unchanged, so no device
context is published; but on a step-6 failure the probe has already
published the MMIO base via pci_set_drvdata and leaves it set after
returning the error. -/
theorem probe_failure_drvdata (env : Env) (p : PciDev) (k : Nat)
    (h : firstFailingStep env = some k) :
    (k ≤ 5 → (fpga_pci_probe env p).drvdata = p.drvdata) ∧
    (k = 6 → (fpga_pci_probe env p).drvdata = env.iomapRes ∧
      Event.setDrvdata env.iomapRes ∈ (fpga_pci_probe env p).trace) := by
  unfold firstFailingStep at h
  by_cases h1 : env.enableRes = 0 <;>
  by_cases h2 : env.regionsRes = 0 <;>
  by_cases h3 : env.iomapRes = 0 <;>
  by_cases h4 : env.ioremapWcRes = 0 <;>
  by_cases h5 : env.dmaBufRes = 0 <;>
  by_cases h6 : env.irqRes = 0 <;>
  simp only [h1, h2, h3, h4, h5, h6, if_true, if_false, ne_eq, not_true_eq_false,
    not_false_eq_true, ite_true, ite_false, reduceCtorEq, Option.some.injEq] at h <;>
  first
  | exact absurd h (by simp)
  | (subst h
     refine ⟨fun hk => ?_, fun hk => ?_⟩ <;>
     first
     | omega
     | simp [fpga_pci_probe, h1, h2, h3, h4, h5, h6])

/-- Witness for probe_failure_drvdata at the concrete step-2 failure. -/
theorem probe_failure_drvdata_witness :
    firstFailingStep envF2 = some 2 ∧
    ((2 ≤ 5 → (fpga_pci_probe envF2 pDev).drvdata = pDev.drvdata) ∧
     (2 = 6 → (fpga_pci_probe envF2 pDev).drvdata = envF2.iomapRes ∧
       Event.setDrvdata envF2.iomapRes ∈ (fpga_pci_probe envF2 pDev).trace)) :=
  ⟨by decide, probe_failure_drvdata envF2 pDev 2 (by decide)⟩

/-- Claim C1: evaluation of the code at a successful probe followed by
removal.  The probe under envOk succeeds, acquiring the
write-combined mapping 200 and the DMA buffer (300, 400); removal under
envRm re-runs ioremap_wc and dma_alloc_coherent, obtains the fresh
handles 201 and (301, 401), and frees those fresh handles — the
originally acquired 200 and (300, 400) are never released, and two
resources remain live after probe plus remove, refuting the claimed
handle-identity property (only the MMIO base 100 and the interrupt
line 7 are released by their recorded handles). -/
theorem remove_reallocates_handles :
    (fpga_pci_probe envOk pDev).ret = 0 ∧
    Event.ioremapWc pDev.resourceStart0 pDev.resourceLen0 200 ∈
      (fpga_pci_probe envOk pDev).trace ∧
    Event.dmaAlloc 4096 300 400 ∈ (fpga_pci_probe envOk pDev).trace ∧
    fpga_pci_remove envRm pDevLive =
      [Event.ioremapWc 0xA000 0x100 201,
       Event.dmaAlloc 4096 301 401,
       Event.freeIrq 7,
       Event.dmaFree 4096 301 401,
       Event.iounmap 201,
       Event.pciIounmap 100,
       Event.releaseRegions,
       Event.disable] ∧
    Event.dmaFree 4096 300 400 ∉ fpga_pci_remove envRm pDevLive ∧
    Event.iounmap 200 ∉ fpga_pci_remove envRm pDevLive ∧
    liveCount (runTrace ((fpga_pci_probe envOk pDev).trace ++
      fpga_pci_remove envRm pDevLive)) = 2 := by decide

/-- On a fully successful probe the drvdata left on the device is the
MMIO base returned by pci_iomap. -/
theorem probe_drvdata_of_success (env : Env) (p : PciDev)
    (h : firstFailingStep env = none) :
    (fpga_pci_probe env p).drvdata = env.iomapRes := by
  unfold firstFailingStep at h
  by_cases h1 : env.enableRes = 0 <;>
  by_cases h2 : env.regionsRes = 0 <;>
  by_cases h3 : env.iomapRes = 0 <;>
  by_cases h4 : env.ioremapWcRes = 0 <;>
  by_cases h5 : env.dmaBufRes = 0 <;>
  by_cases h6 : env.irqRes = 0 <;>
  simp only [h1, h2, h3, h4, h5, h6, if_true, if_false, ne_eq, not_true_eq_false,
    not_false_eq_true, ite_true, ite_false, reduceCtorEq] at h <;>
  simp [fpga_pci_probe, h1, h2, h3, h4, h5, h6]

/-- On a fully successful probe the trace is exactly the six
acquisitions with pci_set_drvdata inserted before request_irq. -/
theorem probe_trace_of_success (env : Env) (p : PciDev)
    (h : firstFailingStep env = none) :
    (fpga_pci_probe env p).trace =
      [.enable, .requestRegions,
       .iomap p.resourceStart0 p.resourceLen0 env.iomapRes,
       .ioremapWc p.resourceStart0 p.resourceLen0 env.ioremapWcRes,
       .dmaAlloc dmaSize env.dmaBufRes env.dmaHandleRes,
       .setDrvdata env.iomapRes,
       .requestIrq p.irq true] := by
  unfold firstFailingStep at h
  by_cases h1 : env.enableRes = 0 <;>
  by_cases h2 : env.regionsRes = 0 <;>
  by_cases h3 : env.iomapRes = 0 <;>
  by_cases h4 : env.ioremapWcRes = 0 <;>
  by_cases h5 : env.dmaBufRes = 0 <;>
  by_cases h6 : env.irqRes = 0 <;>
  simp only [h1, h2, h3, h4, h5, h6, if_true, if_false, ne_eq, not_true_eq_false,
    not_false_eq_true, ite_true, ite_false, reduceCtorEq] at h <;>
  simp [fpga_pci_probe, h1, h2, h3, h4, h5, h6]

/-- Claim C5: in a successful probe the MMIO mapping and the
write-combined mapping are two virtual aliases over the identical
physical range — both cover region 0's physical base with region 0's
length — and, the host runtime having returned distinct virtual bases,
they are distinct aliases; a value stored through either mapping at an
offset is loaded back through the other at the same offset. -/
theorem mappings_alias_same_phys_range (env : Env) (p : PciDev)
    (hs : firstFailingStep env = none)
    (hd : env.iomapRes ≠ env.ioremapWcRes) :
    ∃ mm wm : Mapping,
      Event.iomap mm.physBase mm.len mm.virtBase ∈ (fpga_pci_probe env p).trace ∧
      Event.ioremapWc wm.physBase wm.len wm.virtBase ∈ (fpga_pci_probe env p).trace ∧
      mm.physBase = p.resourceStart0 ∧ mm.physBase = wm.physBase ∧ mm.len = wm.len ∧
      mm.virtBase ≠ wm.virtBase ∧
      (∀ mem off v, readVia mm (writeVia wm mem off v) off = v ∧
                    readVia wm (writeVia mm mem off v) off = v) := by
  refine ⟨⟨env.iomapRes, p.resourceStart0, p.resourceLen0⟩,
          ⟨env.ioremapWcRes, p.resourceStart0, p.resourceLen0⟩, ?_, ?_, rfl, rfl, rfl,
          hd, ?_⟩
  · rw [probe_trace_of_success env p hs]; simp
  · rw [probe_trace_of_success env p hs]; simp
  · intro mem off v
    constructor <;> simp [readVia, writeVia, translate]

/-- Witness for mappings_alias_same_phys_range at the concrete
successful probe. -/
theorem mappings_alias_same_phys_range_witness :
    firstFailingStep envOk = none ∧ envOk.iomapRes ≠ envOk.ioremapWcRes ∧
    (∃ mm wm : Mapping,
      Event.iomap mm.physBase mm.len mm.virtBase ∈ (fpga_pci_probe envOk pDev).trace ∧
      Event.ioremapWc wm.physBase wm.len wm.virtBase ∈ (fpga_pci_probe envOk pDev).trace ∧
      mm.physBase = pDev.resourceStart0 ∧ mm.physBase = wm.physBase ∧ mm.len = wm.len ∧
      mm.virtBase ≠ wm.virtBase ∧
      (∀ mem off v, readVia mm (writeVia wm mem off v) off = v ∧
                    readVia wm (writeVia mm mem off v) off = v)) :=
  ⟨by decide, by decide,
   mappings_alias_same_phys_range envOk pDev (by decide) (by decide)⟩

/-- Claim C7: every DMA allocation the probe performs has the fixed
size 4096 and carries both the CPU-visible address and the device-bus
address the environment returned, the CPU address being non-NULL; and
every fully successful probe performs such an allocation. -/
theorem dma_buffer_fixed_size (env : Env) (p : PciDev) :
    (firstFailingStep env = none →
       Event.dmaAlloc 4096 env.dmaBufRes env.dmaHandleRes ∈
         (fpga_pci_probe env p).trace ∧ env.dmaBufRes ≠ 0) ∧
    (∀ s c b, Event.dmaAlloc s c b ∈ (fpga_pci_probe env p).trace →
       s = 4096 ∧ c = env.dmaBufRes ∧ b = env.dmaHandleRes ∧ c ≠ 0) := by
  unfold fpga_pci_probe firstFailingStep
  by_cases h1 : env.enableRes = 0 <;>
  by_cases h2 : env.regionsRes = 0 <;>
  by_cases h3 : env.iomapRes = 0 <;>
  by_cases h4 : env.ioremapWcRes = 0 <;>
  by_cases h5 : env.dmaBufRes = 0 <;>
  by_cases h6 : env.irqRes = 0 <;>
  simp [h1, h2, h3, h4, h5, h6, dmaSize] <;>
  aesop

/-- Witness for dma_buffer_fixed_size at the concrete successful
probe. -/
theorem dma_buffer_fixed_size_witness :
    (Event.dmaAlloc 4096 envOk.dmaBufRes envOk.dmaHandleRes ∈
       (fpga_pci_probe envOk pDev).trace ∧ envOk.dmaBufRes ≠ 0) ∧
    ((4096 : Nat) = 4096 ∧ (300 : Nat) = envOk.dmaBufRes ∧
       (400 : Nat) = envOk.dmaHandleRes ∧ (300 : Nat) ≠ 0) :=
  ⟨(dma_buffer_fixed_size envOk pDev).1 (by decide),
   (dma_buffer_fixed_size envOk pDev).2 4096 300 400 (by decide)⟩

/-- Claim C8: every interrupt registration the probe performs is on the
device's assigned line pdev.irq and in shared-line mode, a fully
successful probe performs exactly such a registration, and the
registered handler returns a verdict (IRQ_HANDLED) to the dispatcher
for any invocation. -/
theorem irq_registered_shared_on_dev_line (env : Env) (p : PciDev) :
    (firstFailingStep env = none →
       Event.requestIrq p.irq true ∈ (fpga_pci_probe env p).trace) ∧
    (∀ i sh, Event.requestIrq i sh ∈ (fpga_pci_probe env p).trace →
       i = p.irq ∧ sh = true) ∧
    (∀ i d, (fpga_pci_irq_handler i d).2 = Irqreturn.irqHandled) := by
  refine ⟨?_, ?_, fun i d => rfl⟩
  · intro h
    rw [probe_trace_of_success env p h]
    simp
  · unfold fpga_pci_probe
    by_cases h1 : env.enableRes = 0 <;>
    by_cases h2 : env.regionsRes = 0 <;>
    by_cases h3 : env.iomapRes = 0 <;>
    by_cases h4 : env.ioremapWcRes = 0 <;>
    by_cases h5 : env.dmaBufRes = 0 <;>
    by_cases h6 : env.irqRes = 0 <;>
    simp [h1, h2, h3, h4, h5, h6] <;>
    aesop

/-- Witness for irq_registered_shared_on_dev_line at the concrete
successful probe. -/
theorem irq_registered_shared_on_dev_line_witness :
    Event.requestIrq pDev.irq true ∈ (fpga_pci_probe envOk pDev).trace ∧
    ((7 : Nat) = pDev.irq ∧ true = true) ∧
    (fpga_pci_irq_handler 7 0).2 = Irqreturn.irqHandled :=
  ⟨(irq_registered_shared_on_dev_line envOk pDev).1 (by decide),
   (irq_registered_shared_on_dev_line envOk pDev).2.1 7 true (by decide),
   (irq_registered_shared_on_dev_line envOk pDev).2.2 7 0⟩

/-- Claim C9: after a successful probe the only handle recorded in the
per-device state is the MMIO base: drvdata equals pci_iomap's result,
two successful probes agreeing on the MMIO base leave identical
per-device state even when their write-combined and DMA handles
differ, and removal behaves identically on the two resulting devices —
so no later operation can retrieve the step-4 or step-5 handles. -/
theorem drvdata_records_only_mmio (envA envB : Env) (p : PciDev)
    (hA : firstFailingStep envA = none) (hB : firstFailingStep envB = none)
    (hio : envA.iomapRes = envB.iomapRes) :
    (fpga_pci_probe envA p).drvdata = envA.iomapRes ∧
    (fpga_pci_probe envA p).drvdata = (fpga_pci_probe envB p).drvdata ∧
    (∀ envR : RemoveEnv,
       fpga_pci_remove envR { p with drvdata := (fpga_pci_probe envA p).drvdata } =
       fpga_pci_remove envR { p with drvdata := (fpga_pci_probe envB p).drvdata }) := by
  have dA := probe_drvdata_of_success envA p hA
  have dB := probe_drvdata_of_success envB p hB
  have hAB : (fpga_pci_probe envA p).drvdata = (fpga_pci_probe envB p).drvdata := by
    rw [dA, dB, hio]
  exact ⟨dA, hAB, fun envR => by rw [hAB]⟩

/-- A second all-success environment agreeing with envOk on the MMIO
base but returning different write-combined and DMA handles. -/
def envOk2 : Env := { envOk with ioremapWcRes := 500, dmaBufRes := 600, dmaHandleRes := 700 }

/-- Witness for drvdata_records_only_mmio: two successful probes whose
write-combined and DMA handles differ but whose MMIO base agrees. -/
theorem drvdata_records_only_mmio_witness :
    (fpga_pci_probe envOk pDev).drvdata = envOk.iomapRes ∧
    (fpga_pci_probe envOk pDev).drvdata = (fpga_pci_probe envOk2 pDev).drvdata ∧
    (∀ envR : RemoveEnv,
       fpga_pci_remove envR
         { pDev with drvdata := (fpga_pci_probe envOk pDev).drvdata } =
       fpga_pci_remove envR
         { pDev with drvdata := (fpga_pci_probe envOk2 pDev).drvdata }) :=
  drvdata_records_only_mmio envOk envOk2 pDev (by decide) (by decide) (by decide)

end FpgaPci
